import Mathlib

/-!
Verification development for the AT&T router tracker core
(`src/router_client.py`, `src/auth.py`).

The Python code is shallowly embedded:

* Strings are Lean `String`s; the ASCII-only analogues of Python's
  `str.lower`, `str.strip`, `str.split()`, the `in` substring test and
  `str.split(sep, 1)` are defined below on the `List Char` view.
* BeautifulSoup HTML traversal is not embeddable; following the spec's
  design note, a parsed page is a sequence of row records.  A `Row` is
  either a data row (a `th[scope=row]` label cell together with a
  `td.col2` value cell, the space-joined flattening of that cell, and
  the `alt` text of an embedded `img` if any) or a structural row
  (flagged as a device boundary when it holds an `hr.reshr`).
* Network I/O is an oracle `Env`: each `aiohttp` round-trip of the code
  is one lookup, indexed by how many calls of that kind were made so
  far (`Counters`).  A transport/timeout exception of the underlying
  call is the `Except.error` case.
* The recursive `get_devices` is given explicit fuel; `none` as the
  outer result means the recursion did not terminate within the fuel.
-/

namespace ATTRouter

/-- Python truthiness of a `str | None` value: `None` and `""` are falsy. -/
def pyTruthy : Option String → Bool
  | none => false
  | some s => !s.isEmpty

/-- Embeds Python `str.lower()` (ASCII range, as used for the markers here). -/
def pyLower (s : String) : String :=
  String.mk (s.toList.map Char.toLower)

/-- Embeds Python `str.strip()`: drop leading and trailing whitespace. -/
def pyStrip (s : String) : String :=
  String.mk (((s.toList.dropWhile Char.isWhitespace).reverse.dropWhile
      Char.isWhitespace).reverse)

/-- Substring test on character lists, scanning left to right. -/
def hasSub (pat : List Char) : List Char → Bool
  | [] => pat.isEmpty
  | c :: rest => pat.isPrefixOf (c :: rest) || hasSub pat rest

/-- Embeds the Python `pat in s` substring test. -/
def hasSubstr (s pat : String) : Bool :=
  hasSub pat.toList s.toList

/-- Worker for `pyWords`: accumulate the current word (reversed). -/
def pyWordsAux : List Char → List Char → List String
  | [], acc => if acc.isEmpty then [] else [String.mk acc.reverse]
  | c :: rest, acc =>
    if c.isWhitespace then
      if acc.isEmpty then pyWordsAux rest []
      else String.mk acc.reverse :: pyWordsAux rest []
    else pyWordsAux rest (c :: acc)

/-- Embeds Python `str.split()` with no argument: whitespace runs separate
words, and no empty words are produced. -/
def pyWords (s : String) : List String :=
  pyWordsAux s.toList []

/-- Embeds Python `str.split(sep, 1)` for a one-character separator: the part
before the first occurrence, and the remainder if the separator occurs. -/
def splitFirstOn (sep : Char) : List Char → List Char × Option (List Char)
  | [] => ([], none)
  | c :: rest =>
    if c = sep then ([], some rest)
    else
      let r := splitFirstOn sep rest
      (c :: r.1, r.2)

/-- Value of a nonempty digit string, as Python `int` on a digit group. -/
def digitsToNat (l : List Char) : Nat :=
  l.foldl (fun n c => n * 10 + (c.toNat - 48)) 0

/-- Embeds `re.search(r"(\d+) bars?", alt)` followed by `int(group(1))`:
find the leftmost maximal digit run that is followed by `" bar"`.
(Backtracking inside the digit run cannot help: the pattern continues with
a space, which is not a digit.) -/
def findBars : List Char → Option Nat
  | [] => none
  | c :: rest =>
    if c.isDigit then
      let run := (c :: rest).takeWhile Char.isDigit
      let after := (c :: rest).dropWhile Char.isDigit
      if [' ', 'b', 'a', 'r'].isPrefixOf after then some (digitsToNat run)
      else findBars rest
    else findBars rest

/-- Connection-type record, embedding the dict built by
`ATTRouterClient._parse_connection_type` (`src/router_client.py:178`);
`ctype` embeds the `"type"` key. -/
structure ConnType where
  raw : String
  ctype : Option String
  interface : Option String
  signal_bars : Option Nat
  band : Option String
  network_name : Option String
deriving DecidableEq

/-- Embeds the `for i, line in enumerate(lines)` loop of
`_parse_connection_type` (`src/router_client.py:200`): `prev` is
`lines[i-1]` when `i > 0`, the head of the remaining list is `lines[i+1]`. -/
def connScan : Option String → List String → ConnType → ConnType
  | _, [], r => r
  | prev, line :: rest, r =>
    let r1 :=
      if hasSubstr line "GHz" then
        match prev with
        | some p => { r with band := some (p ++ " " ++ line) }
        | none => r
      else if line = "Name:" then
        match rest with
        | next :: _ => { r with network_name := some next }
        | [] => r
      else r
    connScan (some line) rest r1

/-- Embeds `ATTRouterClient._parse_connection_type`
(`src/router_client.py:178-210`).  `text` is `td.get_text(" ", strip=True)`;
`imgAlt` is the `alt` of the first `img` in the cell (`none` when there is no
image or no `alt` attribute, `some ""` when the attribute is empty, which
Python treats as falsy). -/
def parse_connection_type (text : String) (imgAlt : Option String) : ConnType :=
  let base : ConnType :=
    { raw := text, ctype := none, interface := none, signal_bars := none,
      band := none, network_name := none }
  if hasSubstr text "Ethernet" then
    { base with ctype := some "ethernet", interface := some (pyStrip text) }
  else if hasSubstr text "Wi-Fi" then
    let r1 := { base with ctype := some "wifi" }
    let r2 :=
      match imgAlt with
      | some alt =>
        if !alt.isEmpty then
          match findBars alt.toList with
          | some n => { r1 with signal_bars := some n }
          | none => r1
        else r1
      | none => r1
    connScan none (pyWords text) r2
  else base

/-- Device record, embedding the dict built by
`ATTRouterClient._parse_devices`; a `none` field is an absent key. -/
structure Device where
  mac : Option String := none
  mac_formatted : Option String := none
  ip : Option String := none
  name : Option String := none
  status : Option String := none
  is_online : Option Bool := none
  last_activity : Option String := none
  allocation : Option String := none
  connection_type : Option ConnType := none
  connection_speed : Option String := none
deriving DecidableEq

/-- The empty accumulator `current_device = {}`. -/
def emptyDevice : Device := {}

/-- One `tr` of the device table, after BeautifulSoup extraction: a data row
carries `th.get_text(strip=True)`, `td.get_text(strip=True)`,
`td.get_text(" ", strip=True)` and the `img` `alt`; a structural row (missing
`th[scope=row]` or `td.col2`) only records whether it holds an `hr.reshr`
device boundary. -/
inductive Row
  | data (label value connText : String) (imgAlt : Option String)
  | sep (isBoundary : Bool)
deriving DecidableEq

/-- Whether a row is a data row. -/
def Row.isData : Row → Bool
  | .data _ _ _ _ => true
  | .sep _ => false

/-- Whether a row is a data row labelled `"MAC Address"`. -/
def Row.isMacRow : Row → Bool
  | .data label _ _ _ => label = "MAC Address"
  | .sep _ => false

/-- Embeds `value.lower().replace(":", "")` (`src/router_client.py:148`):
lower-case, then remove every colon. -/
def lowerNoColons (v : String) : String :=
  String.mk ((v.toList.map Char.toLower).filter (fun c => c ≠ ':'))

/-- Embeds the label dispatch of `_parse_devices`
(`src/router_client.py:147-170`) for one data row. -/
def stepData (cur : Device) (label value connText : String)
    (imgAlt : Option String) : Device :=
  if label = "MAC Address" then
    { cur with mac := some (lowerNoColons value),
               mac_formatted := some (pyLower value) }
  else if label = "IPv4 Address / Name" then
    match splitFirstOn '/' value.toList with
    | (p0, none) => { cur with ip := some (pyStrip (String.mk p0)) }
    | (p0, some p1) =>
      { cur with ip := some (pyStrip (String.mk p0)),
                 name := some (pyStrip (String.mk p1)) }
  else if label = "Name" then { cur with name := some value }
  else if label = "Status" then
    { cur with status := some value, is_online := some (pyLower value == "on") }
  else if label = "Last Activity" then { cur with last_activity := some value }
  else if label = "Allocation" then { cur with allocation := some value }
  else if label = "Connection Type" then
    { cur with connection_type := some (parse_connection_type connText imgAlt) }
  else if label = "Connection Speed" then
    if value.isEmpty then cur else { cur with connection_speed := some value }
  else cur

/-- Embeds one iteration of the row loop of `_parse_devices`
(`src/router_client.py:132-170`) on the state
`(current_device, devices)`.  A key `"mac" in current_device` test is
`mac.isSome` (the `mac` key is set exactly when `mac_formatted` is, and a
dict holding `mac` is nonempty, so `current_device and "mac" in
current_device` reduces to it). -/
def stepRow : Device × List Device → Row → Device × List Device
  | (cur, acc), Row.sep isBoundary =>
    if isBoundary && cur.mac.isSome then (emptyDevice, acc ++ [cur])
    else (cur, acc)
  | (cur, acc), Row.data label value connText imgAlt =>
    (stepData cur label value connText imgAlt, acc)

/-- Embeds `ATTRouterClient._parse_devices` (`src/router_client.py:122-176`)
on the row sequence of the document: fold the row loop, then commit a
still-open accumulator holding a MAC. -/
def parse_devices (rows : List Row) : List Device :=
  let st := rows.foldl stepRow (emptyDevice, [])
  if st.1.mac.isSome then st.2 ++ [st.1] else st.2

/-- One HTTP response, as the client observes it: the status, the
`Location` header (`""` when absent), the body text, and the BeautifulSoup
row decomposition of the body (environment-provided, since HTML tree
traversal is not embedded). -/
structure HttpResponse where
  status : Nat
  location : String
  body : String
  rows : List Row
deriving DecidableEq

/-- The network oracle: the outcome of the `i`-th call of each kind of
round-trip.  `Except.error ()` is a transport/timeout exception raised by
the underlying `aiohttp` call. -/
structure Env where
  authResults : Nat → Except Unit (Option String)
  validateResponses : Nat → Except Unit HttpResponse
  fetchResponses : Nat → Except Unit HttpResponse

/-- How many calls of each kind have been issued so far; each oracle lookup
uses and then increments its counter, so unchanged counters mean no call of
that kind was made. -/
structure Counters where
  authCalls : Nat
  valCalls : Nat
  fetchCalls : Nat
deriving DecidableEq

/-- Zero counters (a fresh client). -/
def counters0 : Counters := { authCalls := 0, valCalls := 0, fetchCalls := 0 }

/-- Mutable fields of `ATTRouterClient` (`src/router_client.py:20-34`).
`self.auth` is an `ATTRouterAuth` exactly when `access_code` was truthy at
construction, and `access_code` never changes, so the `if self.auth` tests
are embedded as `pyTruthy access_code`.  `auth_failures` embeds
`self._auth_failures`. -/
structure ClientState where
  session_id : Option String
  access_code : Option String
  auth_failures : Nat
deriving DecidableEq

/-- Embeds `ATTRouterAuth.authenticate_with_access_code`
(`src/auth.py:29-160`): the whole login flow is one oracle outcome, and
the surrounding `try`/`except` (`src/auth.py:153-160`) turns any
transport/timeout exception into `None`. -/
def authenticate_with_access_code (env : Env) (i : Nat) : Option String :=
  match env.authResults i with
  | .ok r => r
  | .error _ => none

/-- Embeds `ATTRouterAuth.validate_session` (`src/auth.py:162-196`) as a
function of the response of its single GET; the argument's `error` case is
the `try`/`except` returning `False` on any exception. -/
def validate_session : Except Unit HttpResponse → Bool
  | .error _ => false
  | .ok r =>
    if (r.status == 302 || r.status == 303) &&
        hasSubstr (pyLower r.location) "login" then false
    else if r.status == 200 &&
        (hasSubstr r.body "Device List" || hasSubstr r.body "MAC Address") then
      true
    else if r.status == 200 &&
        (hasSubstr (pyLower r.body) "login" ||
         hasSubstr (pyLower r.body) "password") then false
    else r.status == 200

/-- Embeds `ATTRouterClient._ensure_authenticated`
(`src/router_client.py:36-59`).  Returns the boolean result with the
updated client state and call counters. -/
def ensure_authenticated (env : Env) (k : Counters) (s : ClientState) :
    Bool × ClientState × Counters :=
  if pyTruthy s.access_code && !pyTruthy s.session_id then
    let tok := authenticate_with_access_code env k.authCalls
    let k1 : Counters := { k with authCalls := k.authCalls + 1 }
    let s1 : ClientState := { s with session_id := tok }
    if pyTruthy tok then (true, { s1 with auth_failures := 0 }, k1)
    else (false, s1, k1)
  else if pyTruthy s.access_code && pyTruthy s.session_id then
    let valid := validate_session (env.validateResponses k.valCalls)
    let k1 : Counters := { k with valCalls := k.valCalls + 1 }
    if !valid then
      let tok := authenticate_with_access_code env k1.authCalls
      let k2 : Counters := { k1 with authCalls := k1.authCalls + 1 }
      let s1 : ClientState := { s with session_id := tok }
      if pyTruthy tok then (true, { s1 with auth_failures := 0 }, k2)
      else (false, s1, k2)
    else (s.session_id.isSome, s, k1)
  else (s.session_id.isSome, s, k)

/-- Embeds `ATTRouterClient.get_devices` (`src/router_client.py:61-120`)
with explicit fuel for the `return await self.get_devices()` recursion: the
outer `none` means the recursion did not return within `fuel` calls, so the
Python original recurses without bound.  A returned value carries the
result of the call (`none` embeds Python `None`), the final client state
and the final call counters. -/
def get_devices (env : Env) :
    Nat → Counters → ClientState →
    Option (Option (List Device) × ClientState × Counters)
  | 0, _, _ => none
  | fuel + 1, k, s =>
    match ensure_authenticated env k s with
    | (false, s1, k1) => some (none, s1, k1)
    | (true, s1, k1) =>
      let k2 : Counters := { k1 with fetchCalls := k1.fetchCalls + 1 }
      match env.fetchResponses k1.fetchCalls with
      | .error _ => some (none, s1, k2)
      | .ok r =>
        if (r.status == 302 || r.status == 303) &&
            hasSubstr (pyLower r.location) "login" then
          if pyTruthy s1.access_code && decide (s1.auth_failures < 2) then
            get_devices env fuel k2
              { s1 with auth_failures := s1.auth_failures + 1,
                        session_id := none }
          else some (none, s1, k2)
        else if !(r.status == 200) then some (none, s1, k2)
        else if hasSubstr (pyLower r.body) "login" &&
            hasSubstr (pyLower r.body) "password" then
          if pyTruthy s1.access_code && decide (s1.auth_failures < 2) then
            get_devices env fuel k2
              { s1 with auth_failures := s1.auth_failures + 1,
                        session_id := none }
          else some (none, s1, k2)
        else
          some (some (parse_devices r.rows), { s1 with auth_failures := 0 }, k2)

/-! Concrete fixtures used by the theorems below. -/

/-- A 302 response redirecting to the login page, with an empty body. -/
def loginRedirect : HttpResponse :=
  { status := 302, location := "/cgi-bin/login.ha", body := "", rows := [] }

/-- A router on which every authentication attempt succeeds with a fresh
token while every device-list fetch answers with a redirect to the login
page (a persistently expiring session). -/
def envExpire : Env :=
  { authResults := fun _ => Except.ok (some "tok"),
    validateResponses := fun _ => Except.ok loginRedirect,
    fetchResponses := fun _ => Except.ok loginRedirect }

/-- A fresh AccessCode-mode client (access code, no session token). -/
def sAC : ClientState :=
  { session_id := none, access_code := some "code", auth_failures := 0 }

/-- A ProvidedToken-mode client (session token, no access code). -/
def sPT : ClientState :=
  { session_id := some "tok0", access_code := none, auth_failures := 0 }

/-- A 200 device-list response whose body decomposes into one device row. -/
def devResp : HttpResponse :=
  { status := 200, location := "", body := "Device List",
    rows := [Row.data "MAC Address" "AA:BB" "" none] }

/-- A router whose validation GET raises a transport exception while
authentication succeeds and the device-list fetch answers normally. -/
def envHeal : Env :=
  { authResults := fun _ => Except.ok (some "t2"),
    validateResponses := fun _ => Except.error (),
    fetchResponses := fun _ => Except.ok devResp }

/-- An AccessCode-mode client that already holds a (stale) session token. -/
def sHeal : ClientState :=
  { session_id := some "old", access_code := some "code", auth_failures := 0 }

/-- A router on which every network round-trip raises a transport
exception. -/
def envErrAll : Env :=
  { authResults := fun _ => Except.error (),
    validateResponses := fun _ => Except.error (),
    fetchResponses := fun _ => Except.error () }

/-- Normal form required of an emitted `mac` key: no colon, and every
alphabetic character lowercase. -/
def macGood (m : String) : Prop :=
  ':' ∉ m.toList ∧ ∀ c ∈ m.toList, c.isAlpha = true → c.isLower = true

/-- A device whose `mac` key, when present, is in `macGood` normal form. -/
def devMacGood (d : Device) : Prop :=
  ∀ m, d.mac = some m → macGood m

/-- Join device blocks with one boundary row between consecutive blocks and
no trailing boundary row. -/
def joinSep : List (List Row) → List Row
  | [] => []
  | [b] => b
  | b :: c :: rest => b ++ Row.sep true :: joinSep (c :: rest)

/-- A device block for the counting property: only data rows, at least one
of them a `"MAC Address"` row. -/
def goodBlock (b : List Row) : Prop :=
  (∀ r ∈ b, r.isData = true) ∧ ∃ r ∈ b, r.isMacRow = true

/-- Claim C9: parsing the connection-type cell text
"Wi-Fi 5 GHz Name: HomeNet-5G" whose markup contains an image with
descriptive text "3 bars" yields kind wifi, 3 signal bars, band "5 GHz"
and network name "HomeNet-5G". -/
theorem parse_connection_type_wifi_example :
    parse_connection_type "Wi-Fi 5 GHz Name: HomeNet-5G" (some "3 bars") =
      { raw := "Wi-Fi 5 GHz Name: HomeNet-5G", ctype := some "wifi",
        interface := none, signal_bars := some 3, band := some "5 GHz",
        network_name := some "HomeNet-5G" } := by
  decide

/-- Claim C7, counterexample: a MAC cell written with dash separators is
emitted with the dashes retained — only colons are stripped, so the claim
that `mac_key` contains "no other separator characters" fails. -/
theorem parse_devices_mac_keeps_dashes :
    (parse_devices [Row.data "MAC Address" "AA-BB-CC-DD-EE-FF" "" none]).map
        Device.mac = [some "aa-bb-cc-dd-ee-ff"] ∧
      '-' ∈ "aa-bb-cc-dd-ee-ff".toList := by
  decide

/-- Claim C8, counterexample: a "Connection Speed" row with an empty value
cell does not create the `connection_speed` field — the branch is guarded
by `if value:`, so the emitted record lacks the key. -/
theorem parse_devices_empty_connection_speed_dropped :
    (parse_devices
        [Row.data "MAC Address" "AA:BB" "" none,
         Row.data "Connection Speed" "" "" none]).map
      Device.connection_speed = [none] := by
  decide

/-- Claim C8 as amended: a row with a recognized label and an empty value
cell still creates or updates the corresponding field for every recognized
label except "Connection Speed" (empty string; for "Status" additionally
`is_online = false`, and for "Connection Type" a record of the cell's
flattened text), while a "Connection Speed" row with an empty value leaves
the accumulator unchanged; no case fails. -/
theorem stepData_empty_value_fields (cur : Device) (t : String)
    (a : Option String) :
    (stepData cur "MAC Address" "" t a).mac = some "" ∧
    (stepData cur "MAC Address" "" t a).mac_formatted = some "" ∧
    (stepData cur "IPv4 Address / Name" "" t a).ip = some "" ∧
    (stepData cur "Name" "" t a).name = some "" ∧
    (stepData cur "Status" "" t a).status = some "" ∧
    (stepData cur "Status" "" t a).is_online = some false ∧
    (stepData cur "Last Activity" "" t a).last_activity = some "" ∧
    (stepData cur "Allocation" "" t a).allocation = some "" ∧
    (stepData cur "Connection Type" "" t a).connection_type =
      some (parse_connection_type t a) ∧
    stepData cur "Connection Speed" "" t a = cur := by
  refine ⟨rfl, rfl, rfl, rfl, rfl, rfl, rfl, rfl, rfl, rfl⟩

theorem stepData_mac (cur : Device) (l v t : String) (a : Option String) :
    (stepData cur l v t a).mac =
      if l = "MAC Address" then some (lowerNoColons v) else cur.mac := by
  by_cases hl : l = "MAC Address"
  · subst hl; simp [stepData]
  · rw [if_neg hl]
    unfold stepData
    rw [if_neg hl]
    repeat' split
    all_goals rfl

theorem stepRow_acc_mac (st : Device × List Device) (r : Row)
    (h : ∀ d ∈ st.2, d.mac.isSome = true) :
    ∀ d ∈ (stepRow st r).2, d.mac.isSome = true := by
  obtain ⟨cur, acc⟩ := st
  cases r with
  | data l v t a => simpa [stepRow] using h
  | sep b =>
    by_cases hb : (b && cur.mac.isSome) = true
    · intro d hd
      simp only [stepRow, if_pos hb, List.mem_append, List.mem_singleton] at hd
      rcases hd with hd | hd
      · exact h d hd
      · subst hd
        simp only [Bool.and_eq_true] at hb
        exact hb.2
    · simpa [stepRow, hb] using h

theorem foldl_stepRow_acc_mac (rows : List Row) :
    ∀ st : Device × List Device, (∀ d ∈ st.2, d.mac.isSome = true) →
      ∀ d ∈ (rows.foldl stepRow st).2, d.mac.isSome = true := by
  induction rows with
  | nil => exact fun st h => h
  | cons r rest ih =>
    intro st h
    exact ih _ (stepRow_acc_mac st r h)

/-- Claim C5: every device record in the parser's output was emitted only
after a MAC address was extracted for it — each record carries a `mac`
key; a block lacking a MAC row never reaches the output. -/
theorem parse_devices_mac_present (rows : List Row) :
    ∀ d ∈ parse_devices rows, d.mac.isSome = true := by
  intro d hd
  unfold parse_devices at hd
  by_cases hm : (rows.foldl stepRow (emptyDevice, [])).1.mac.isSome = true
  · rw [if_pos hm] at hd
    rcases List.mem_append.mp hd with h1 | h1
    · exact foldl_stepRow_acc_mac rows (emptyDevice, []) (by simp) d h1
    · rw [List.mem_singleton] at h1; subst h1; exact hm
  · rw [if_neg hm] at hd
    exact foldl_stepRow_acc_mac rows (emptyDevice, []) (by simp) d hd

/-- Claim C5, witness at a one-row table. -/
theorem parse_devices_mac_present_witness :
    (Device.mk (some "aabb") (some "aa:bb") none none none none none none
        none none).mac.isSome = true :=
  parse_devices_mac_present [Row.data "MAC Address" "AA:BB" "" none] _
    (by decide)

theorem toLower_isUpper_false (a : Char) : (Char.toLower a).isUpper = false := by
  unfold Char.toLower
  by_cases h : a.toNat ≥ 65 ∧ a.toNat ≤ 90
  · rw [if_pos h]
    have hv : (a.toNat + 32).isValidChar := Or.inl (by omega)
    rw [Char.ofNat, dif_pos hv]
    have hle : ¬ ((Char.ofNatAux (a.toNat + 32) hv).val ≤ (90 : UInt32)) := by
      rw [UInt32.le_def, BitVec.le_def]
      show ¬ (a.toNat + 32 ≤ 90)
      omega
    simp [Char.isUpper, hle]
  · rw [if_neg h]
    have h65 : ((65 : UInt32) ≤ a.val) ↔ 65 ≤ a.toNat := by
      rw [UInt32.le_def, BitVec.le_def]; exact Iff.rfl
    have h90 : (a.val ≤ (90 : UInt32)) ↔ a.toNat ≤ 90 := by
      rw [UInt32.le_def, BitVec.le_def]; exact Iff.rfl
    simp only [Char.isUpper, ge_iff_le, Bool.and_eq_false_iff,
      decide_eq_false_iff_not]
    rw [h65, h90]
    omega

theorem toLower_alpha_lower (a : Char) :
    (Char.toLower a).isAlpha = true → (Char.toLower a).isLower = true := by
  intro h
  have hu := toLower_isUpper_false a
  simpa [Char.isAlpha, hu] using h

theorem lowerNoColons_good (v : String) : macGood (lowerNoColons v) := by
  constructor
  · intro hmem
    have := (List.mem_filter.mp hmem).2
    simp at this
  · intro c hmem
    have h2 := List.mem_filter.mp hmem
    rcases List.mem_map.mp h2.1 with ⟨a, _, ha⟩
    subst ha
    exact toLower_alpha_lower a

theorem stepRow_macGood (st : Device × List Device) (r : Row)
    (h1 : devMacGood st.1) (h2 : ∀ d ∈ st.2, devMacGood d) :
    devMacGood (stepRow st r).1 ∧ ∀ d ∈ (stepRow st r).2, devMacGood d := by
  obtain ⟨cur, acc⟩ := st
  cases r with
  | data l v t a =>
    refine ⟨?_, h2⟩
    intro m hm
    simp only [stepRow] at hm
    rw [stepData_mac] at hm
    by_cases hl : l = "MAC Address"
    · rw [if_pos hl] at hm
      cases hm
      exact lowerNoColons_good v
    · rw [if_neg hl] at hm
      exact h1 m hm
  | sep b =>
    by_cases hb : (b && cur.mac.isSome) = true
    · refine ⟨?_, ?_⟩
      · intro m hm
        simp only [stepRow, if_pos hb] at hm
        simp [emptyDevice] at hm
      · intro d hd
        simp only [stepRow, if_pos hb, List.mem_append,
          List.mem_singleton] at hd
        rcases hd with hd | hd
        · exact h2 d hd
        · subst hd; exact h1
    · constructor
      · simpa [stepRow, hb] using h1
      · simpa [stepRow, hb] using h2

theorem foldl_stepRow_macGood (rows : List Row) :
    ∀ st : Device × List Device,
      devMacGood st.1 → (∀ d ∈ st.2, devMacGood d) →
      devMacGood (rows.foldl stepRow st).1 ∧
        ∀ d ∈ (rows.foldl stepRow st).2, devMacGood d := by
  induction rows with
  | nil => exact fun st h1 h2 => ⟨h1, h2⟩
  | cons r rest ih =>
    intro st h1 h2
    obtain ⟨g1, g2⟩ := stepRow_macGood st r h1 h2
    exact ih _ g1 g2

/-- Claim C7 as amended: the emitted `mac_key` is the MAC cell's text
lower-cased with colons (only) stripped — it contains no colon and every
alphabetic character in it is lowercase; other separators (e.g. dashes)
are retained as-is. -/
theorem parse_devices_mac_normalized (rows : List Row) (d : Device)
    (m : String) (hd : d ∈ parse_devices rows) (hm : d.mac = some m) :
    ':' ∉ m.toList ∧ ∀ c ∈ m.toList, c.isAlpha = true → c.isLower = true := by
  have hbase : devMacGood emptyDevice := by
    intro m hm'
    simp [emptyDevice] at hm'
  obtain ⟨g1, g2⟩ :=
    foldl_stepRow_macGood rows (emptyDevice, []) hbase (by simp)
  unfold parse_devices at hd
  by_cases hc : (rows.foldl stepRow (emptyDevice, [])).1.mac.isSome = true
  · rw [if_pos hc] at hd
    rcases List.mem_append.mp hd with h1 | h1
    · exact g2 d h1 m hm
    · rw [List.mem_singleton] at h1; subst h1; exact g1 m hm
  · rw [if_neg hc] at hd
    exact g2 d hd m hm

/-- Claim C7 (amended), witness at a one-row table. -/
theorem parse_devices_mac_normalized_witness :
    ':' ∉ "aabb".toList ∧
      ∀ c ∈ "aabb".toList, c.isAlpha = true → c.isLower = true :=
  parse_devices_mac_normalized [Row.data "MAC Address" "AA:BB" "" none]
    (Device.mk (some "aabb") (some "aa:bb") none none none none none none
      none none) "aabb" (by decide) rfl

theorem stepData_mac_mono (cur : Device) (l v t : String) (a : Option String)
    (h : cur.mac.isSome = true) : (stepData cur l v t a).mac.isSome = true := by
  rw [stepData_mac]
  split <;> simp [h]

theorem stepRow_sep_commit (st : Device × List Device)
    (h : st.1.mac.isSome = true) :
    stepRow st (Row.sep true) = (emptyDevice, st.2 ++ [st.1]) := by
  obtain ⟨cur, acc⟩ := st
  simp only [stepRow]
  rw [if_pos]
  simpa using h

theorem foldl_block (b : List Row) :
    (∀ r ∈ b, r.isData = true) →
    ∀ cur acc, (b.foldl stepRow (cur, acc)).2 = acc ∧
      (((∃ r ∈ b, r.isMacRow = true) ∨ cur.mac.isSome = true) →
        (b.foldl stepRow (cur, acc)).1.mac.isSome = true) := by
  induction b with
  | nil =>
    intro _ cur acc
    refine ⟨rfl, ?_⟩
    rintro (⟨r, hr, _⟩ | h)
    · exact absurd hr (List.not_mem_nil r)
    · exact h
  | cons r rest ih =>
    intro hd cur acc
    have hr : r.isData = true := hd r (List.mem_cons_self r rest)
    obtain ⟨l, v, t, a, rfl⟩ : ∃ l v t a, r = Row.data l v t a := by
      cases r with
      | data l v t a => exact ⟨l, v, t, a, rfl⟩
      | sep bb => simp [Row.isData] at hr
    have hd' : ∀ r' ∈ rest, r'.isData = true :=
      fun r' h' => hd r' (List.mem_cons_of_mem _ h')
    rw [List.foldl_cons]
    have ih' := ih hd' (stepData cur l v t a) acc
    refine ⟨ih'.1, ?_⟩
    rintro (⟨r', hr', hmac⟩ | h)
    · rcases List.mem_cons.mp hr' with h1 | h1
      · subst h1
        simp only [Row.isMacRow, decide_eq_true_eq] at hmac
        refine ih'.2 (Or.inr ?_)
        rw [stepData_mac, if_pos hmac]
        rfl
      · exact ih'.2 (Or.inl ⟨r', h1, hmac⟩)
    · exact ih'.2 (Or.inr (stepData_mac_mono cur l v t a h))

theorem joinSep_foldl (blocks : List (List Row)) :
    (∀ b ∈ blocks, goodBlock b) → blocks ≠ [] →
    ∀ acc,
      ((joinSep blocks).foldl stepRow (emptyDevice, acc)).1.mac.isSome
          = true ∧
        ((joinSep blocks).foldl stepRow (emptyDevice, acc)).2.length
          = acc.length + blocks.length - 1 := by
  induction blocks with
  | nil => intro _ h; exact absurd rfl h
  | cons b rest ih =>
    intro hg _ acc
    have hb : goodBlock b := hg b (List.mem_cons_self b rest)
    cases rest with
    | nil =>
      have h := foldl_block b hb.1 emptyDevice acc
      simp only [joinSep]
      exact ⟨h.2 (Or.inl hb.2), by rw [h.1]; simp⟩
    | cons c rest2 =>
      have h1 := foldl_block b hb.1 emptyDevice acc
      have hcur : (b.foldl stepRow (emptyDevice, acc)).1.mac.isSome = true :=
        h1.2 (Or.inl hb.2)
      have hg' : ∀ b' ∈ c :: rest2, goodBlock b' :=
        fun b' h' => hg b' (List.mem_cons_of_mem _ h')
      have ihr := ih hg' (by simp) (acc ++ [(b.foldl stepRow (emptyDevice, acc)).1])
      simp only [joinSep]
      rw [List.foldl_append, List.foldl_cons,
        stepRow_sep_commit _ hcur, h1.1]
      refine ⟨ihr.1, ?_⟩
      rw [ihr.2]
      simp only [List.length_append, List.length_cons, List.length_nil]
      omega

/-- Claim C6: a table of N device blocks, each a run of data rows holding a
MAC-address row, separated by boundary rows with no trailing boundary,
parses to exactly N records — the still-open accumulator is committed at
the end of the scan. -/
theorem parse_devices_block_count (blocks : List (List Row))
    (hg : ∀ b ∈ blocks, goodBlock b) :
    (parse_devices (joinSep blocks)).length = blocks.length := by
  cases blocks with
  | nil => rfl
  | cons b rest =>
    have h := joinSep_foldl (b :: rest) hg (by simp) []
    unfold parse_devices
    rw [if_pos h.1, List.length_append, h.2]
    simp

/-- Claim C6, witness: two one-row blocks and one separating boundary give
two records. -/
theorem parse_devices_block_count_witness :
    (parse_devices (joinSep
        [[Row.data "MAC Address" "AA:BB" "" none],
         [Row.data "MAC Address" "CC:DD" "" none]])).length = 2 :=
  parse_devices_block_count
    [[Row.data "MAC Address" "AA:BB" "" none],
     [Row.data "MAC Address" "CC:DD" "" none]]
    (by
      intro b hb
      rcases List.mem_cons.mp hb with h | h
      · subst h
        exact ⟨by decide, ⟨Row.data "MAC Address" "AA:BB" "" none,
          by decide, by decide⟩⟩
      · rw [List.mem_singleton] at h
        subst h
        exact ⟨by decide, ⟨Row.data "MAC Address" "CC:DD" "" none,
          by decide, by decide⟩⟩)

theorem ensure_authenticated_no_auth (env : Env) (k : Counters)
    (s : ClientState) (h : s.access_code = none) :
    ensure_authenticated env k s = (s.session_id.isSome, s, k) := by
  simp [ensure_authenticated, h, pyTruthy]

theorem ensure_authenticated_fetchCalls (env : Env) (k : Counters)
    (s : ClientState) :
    (ensure_authenticated env k s).2.2.fetchCalls = k.fetchCalls := by
  unfold ensure_authenticated
  simp only []
  repeat' split
  all_goals rfl

/-- Claim C2: in ProvidedToken mode (session token, no access code), a
device-list fetch answered by a login redirect makes `get_devices` return
absent with the state unchanged and without a single authenticate or
validate call (those counters are untouched). -/
theorem get_devices_provided_token_login_redirect (env : Env) (k : Counters)
    (s : ClientState) (tok : String) (r : HttpResponse) (fuel : Nat)
    (hac : s.access_code = none) (hsid : s.session_id = some tok)
    (hr : env.fetchResponses k.fetchCalls = Except.ok r)
    (hst : r.status = 302 ∨ r.status = 303)
    (hloc : hasSubstr (pyLower r.location) "login" = true) :
    get_devices env (fuel + 1) k s =
      some (none, s, { k with fetchCalls := k.fetchCalls + 1 }) := by
  have hs1 : s.session_id.isSome = true := by rw [hsid]; rfl
  rcases hst with h3 | h3 <;>
    simp [get_devices, ensure_authenticated_no_auth env k s hac, hs1, hr,
      h3, hloc, pyTruthy, hac]

/-- Claim C2, witness against `envExpire` with the ProvidedToken client. -/
theorem get_devices_provided_token_login_redirect_witness :
    get_devices envExpire 1 counters0 sPT =
      some (none, sPT, { counters0 with fetchCalls := 1 }) :=
  get_devices_provided_token_login_redirect envExpire counters0 sPT "tok0"
    loginRedirect 0 rfl rfl rfl (Or.inl rfl) (by decide)

/-- Claim C10: in ProvidedToken mode, `get_devices` always terminates in one
round and never modifies the stored session token: whatever the fetch
outcome (redirect, non-200, login body, success, or transport error), the
returned state's `session_id` equals its value before the call. -/
theorem get_devices_provided_token_preserves_session (env : Env)
    (fuel : Nat) (k : Counters) (s : ClientState) (tok : String)
    (hac : s.access_code = none) (hsid : s.session_id = some tok) :
    (get_devices env (fuel + 1) k s).map (fun t => t.2.1.session_id)
      = some s.session_id := by
  have hs1 : s.session_id.isSome = true := by rw [hsid]; rfl
  simp only [get_devices, ensure_authenticated_no_auth env k s hac, hs1]
  cases hfetch : env.fetchResponses k.fetchCalls with
  | error e => simp
  | ok r =>
    by_cases h1 : ((r.status == 302 || r.status == 303) &&
        hasSubstr (pyLower r.location) "login") = true
    · simp [h1, pyTruthy, hac]
    · by_cases h2 : (r.status == 200) = true
      · by_cases h3 : (hasSubstr (pyLower r.body) "login" &&
            hasSubstr (pyLower r.body) "password") = true
        · simp [h1, h2, h3, pyTruthy, hac]
        · simp [h1, h2, h3]
      · simp [h1, h2]

/-- Claim C10, witness against `envExpire` with the ProvidedToken client. -/
theorem get_devices_provided_token_preserves_session_witness :
    (get_devices envExpire 1 counters0 sPT).map (fun t => t.2.1.session_id)
      = some (some "tok0") :=
  get_devices_provided_token_preserves_session envExpire 0 counters0 sPT
    "tok0" rfl rfl

/-- Claim C1 (refuting theorem for the code bug): in AccessCode mode,
against a router on which every re-authentication succeeds but every device
fetch answers with a login redirect, `get_devices` never returns for any
amount of fuel — the recursion is unbounded, because each successful
re-authentication inside `_ensure_authenticated` resets the retry counter
to 0 before the `< 2` guard is consulted.  The claim's bound of at most 2
consecutive retries followed by an absent return does not hold. -/
theorem get_devices_expire_loop_diverges :
    ∀ (fuel : Nat) (k : Counters) (s : ClientState),
      pyTruthy s.access_code = true →
      get_devices envExpire fuel k s = none := by
  have henv1 : ∀ i, envExpire.authResults i = Except.ok (some "tok") :=
    fun _ => rfl
  have henv2 : ∀ i, envExpire.validateResponses i = Except.ok loginRedirect :=
    fun _ => rfl
  have henv3 : ∀ i, envExpire.fetchResponses i = Except.ok loginRedirect :=
    fun _ => rfl
  have htok : pyTruthy (some "tok") = true := rfl
  have hval : validate_session (Except.ok loginRedirect) = false := by decide
  have hred : ((loginRedirect.status == 302 || loginRedirect.status == 303) &&
      hasSubstr (pyLower loginRedirect.location) "login") = true := by decide
  intro fuel
  induction fuel with
  | zero => intro k s _; rfl
  | succ n ih =>
    intro k s h
    cases hsid : pyTruthy s.session_id with
    | false =>
      have hstep : get_devices envExpire (n + 1) k s =
          get_devices envExpire n
            { authCalls := k.authCalls + 1, valCalls := k.valCalls,
              fetchCalls := k.fetchCalls + 1 }
            { session_id := none, access_code := s.access_code,
              auth_failures := 1 } := by
        simp only [get_devices, ensure_authenticated,
          authenticate_with_access_code, h, hsid, henv1, henv3, htok, hred,
          Bool.not_false, Bool.and_true, Bool.true_and, if_true,
          decide_True, Nat.zero_add]
        rfl
      rw [hstep]
      exact ih _ _ h
    | true =>
      have hstep : get_devices envExpire (n + 1) k s =
          get_devices envExpire n
            { authCalls := k.authCalls + 1, valCalls := k.valCalls + 1,
              fetchCalls := k.fetchCalls + 1 }
            { session_id := none, access_code := s.access_code,
              auth_failures := 1 } := by
        simp only [get_devices, ensure_authenticated,
          authenticate_with_access_code, h, hsid, henv1, henv2, henv3, htok,
          hval, hred, Bool.not_true, Bool.not_false, Bool.and_true,
          Bool.true_and, Bool.and_false, if_true, if_false,
          Bool.false_eq_true, decide_True, Nat.zero_add]
        rfl
      rw [hstep]
      exact ih _ _ h

/-- Claim C1, witness: the divergence evaluated at fuel 5 from a fresh
AccessCode client. -/
theorem get_devices_expire_loop_diverges_witness :
    get_devices envExpire 5 counters0 sAC = none :=
  get_devices_expire_loop_diverges 5 counters0 sAC rfl

/-- Claim C3: `validate_session` returns false on a redirect whose Location
contains "login"; true on a 200 whose body holds a device-list marker
("Device List" or "MAC Address"); false on a 200 whose body instead holds a
login or password marker; otherwise true exactly when the status is 200;
and false on any transport exception. -/
theorem validate_session_spec (r : HttpResponse) :
    (((r.status = 302 ∨ r.status = 303) ∧
        hasSubstr (pyLower r.location) "login" = true) →
      validate_session (Except.ok r) = false) ∧
    ((r.status = 200 ∧ (hasSubstr r.body "Device List" = true ∨
        hasSubstr r.body "MAC Address" = true)) →
      validate_session (Except.ok r) = true) ∧
    ((r.status = 200 ∧ ¬(hasSubstr r.body "Device List" = true ∨
        hasSubstr r.body "MAC Address" = true) ∧
      (hasSubstr (pyLower r.body) "login" = true ∨
        hasSubstr (pyLower r.body) "password" = true)) →
      validate_session (Except.ok r) = false) ∧
    ((¬((r.status = 302 ∨ r.status = 303) ∧
          hasSubstr (pyLower r.location) "login" = true) ∧
      ¬(r.status = 200 ∧ (hasSubstr r.body "Device List" = true ∨
          hasSubstr r.body "MAC Address" = true)) ∧
      ¬(r.status = 200 ∧ (hasSubstr (pyLower r.body) "login" = true ∨
          hasSubstr (pyLower r.body) "password" = true))) →
      (validate_session (Except.ok r) = true ↔ r.status = 200)) ∧
    validate_session (Except.error ()) = false := by
  refine ⟨?_, ?_, ?_, ?_, rfl⟩
  · rintro ⟨h1, h2⟩
    have hc : ((r.status == 302 || r.status == 303) &&
        hasSubstr (pyLower r.location) "login") = true := by
      rcases h1 with h | h <;> simp [h, h2]
    simp only [validate_session]
    rw [if_pos hc]
  · rintro ⟨h1, h2⟩
    have hc1 : ((r.status == 302 || r.status == 303) &&
        hasSubstr (pyLower r.location) "login") = false := by
      simp [h1]
    have hc2 : (r.status == 200 && (hasSubstr r.body "Device List" ||
        hasSubstr r.body "MAC Address")) = true := by
      rcases h2 with h | h <;> simp [h1, h]
    simp only [validate_session]
    rw [if_neg (by simp [hc1]), if_pos hc2]
  · rintro ⟨h1, h2, h3⟩
    simp only [not_or, Bool.not_eq_true] at h2
    have hc1 : ((r.status == 302 || r.status == 303) &&
        hasSubstr (pyLower r.location) "login") = false := by
      simp [h1]
    have hc2 : (r.status == 200 && (hasSubstr r.body "Device List" ||
        hasSubstr r.body "MAC Address")) = false := by
      simp [h2.1, h2.2]
    have hc3 : (r.status == 200 && (hasSubstr (pyLower r.body) "login" ||
        hasSubstr (pyLower r.body) "password")) = true := by
      rcases h3 with h | h <;> simp [h1, h]
    simp only [validate_session]
    rw [if_neg (by simp [hc1]), if_neg (by simp [hc2]), if_pos hc3]
  · rintro ⟨h1, h2, h3⟩
    have hc1 : ((r.status == 302 || r.status == 303) &&
        hasSubstr (pyLower r.location) "login") = false := by
      by_cases hl : hasSubstr (pyLower r.location) "login" = true
      · by_cases h302 : r.status = 302
        · exact absurd ⟨Or.inl h302, hl⟩ h1
        · by_cases h303 : r.status = 303
          · exact absurd ⟨Or.inr h303, hl⟩ h1
          · simp [h302, h303]
      · rw [Bool.not_eq_true] at hl
        simp [hl]
    have hc2 : (r.status == 200 && (hasSubstr r.body "Device List" ||
        hasSubstr r.body "MAC Address")) = false := by
      by_cases h200 : r.status = 200
      · by_cases ha : hasSubstr r.body "Device List" = true
        · exact absurd ⟨h200, Or.inl ha⟩ h2
        · by_cases hb : hasSubstr r.body "MAC Address" = true
          · exact absurd ⟨h200, Or.inr hb⟩ h2
          · rw [Bool.not_eq_true] at ha hb
            simp [ha, hb]
      · simp [h200]
    have hc3 : (r.status == 200 && (hasSubstr (pyLower r.body) "login" ||
        hasSubstr (pyLower r.body) "password")) = false := by
      by_cases h200 : r.status = 200
      · by_cases ha : hasSubstr (pyLower r.body) "login" = true
        · exact absurd ⟨h200, Or.inl ha⟩ h3
        · by_cases hb : hasSubstr (pyLower r.body) "password" = true
          · exact absurd ⟨h200, Or.inr hb⟩ h3
          · rw [Bool.not_eq_true] at ha hb
            simp [ha, hb]
      · simp [h200]
    simp only [validate_session]
    rw [if_neg (by simp [hc1]), if_neg (by simp [hc2]), if_neg (by simp [hc3])]
    simp

/-- Claim C3, witness: the login-redirect case at a concrete response. -/
theorem validate_session_spec_witness :
    validate_session (Except.ok loginRedirect) = false :=
  (validate_session_spec loginRedirect).1 ⟨Or.inl rfl, by decide⟩

/-- Claim C4, counterexample: a transport exception raised at the
validation step does not result in an absent return — `validate_session`
fails closed, `_ensure_authenticated` re-authenticates, and `get_devices`
returns a parsed device list. -/
theorem get_devices_validation_error_recovers :
    envHeal.validateResponses 0 = Except.error () ∧
    get_devices envHeal 1 counters0 sHeal =
      some (some [Device.mk (some "aabb") (some "aa:bb") none none none none
          none none none none],
        { session_id := some "t2", access_code := some "code",
          auth_failures := 0 },
        { authCalls := 1, valCalls := 1, fetchCalls := 1 }) :=
  ⟨rfl, by decide⟩

/-- Claim C4 as amended: `get_devices` never surfaces a transport/timeout
exception — an exception in the whole authentication flow is absorbed into
an absent token, one in validation into a `false` (invalid) verdict, an
exception in the device-list fetch makes the call return absent, and an
exception while authenticating a client with no usable session also makes
the call return absent.  (An exception at the validation step alone may
still be healed by re-authentication and produce a device list.) -/
theorem get_devices_transport_exceptions_absorbed :
    (∀ (env : Env) (i : Nat), env.authResults i = Except.error () →
      authenticate_with_access_code env i = none) ∧
    (validate_session (Except.error ()) = false) ∧
    (∀ (env : Env) (k : Counters) (s : ClientState) (fuel : Nat),
      env.fetchResponses k.fetchCalls = Except.error () →
      (get_devices env (fuel + 1) k s).map (fun t => t.1) = some none) ∧
    (∀ (env : Env) (k : Counters) (s : ClientState) (fuel : Nat),
      pyTruthy s.access_code = true → pyTruthy s.session_id = false →
      env.authResults k.authCalls = Except.error () →
      (get_devices env (fuel + 1) k s).map (fun t => t.1) = some none) := by
  refine ⟨?_, rfl, ?_, ?_⟩
  · intro env i herr
    unfold authenticate_with_access_code
    rw [herr]
  · intro env k s fuel herr
    unfold get_devices
    rcases hens : ensure_authenticated env k s with ⟨b, s1, k1⟩
    have hkf : k1.fetchCalls = k.fetchCalls := by
      have h := ensure_authenticated_fetchCalls env k s
      rw [hens] at h
      exact h
    cases b with
    | false => simp
    | true => simp [hkf, herr]
  · intro env k s fuel h hsid herr
    have hens : ensure_authenticated env k s =
        (false, { session_id := none, access_code := s.access_code,
                  auth_failures := s.auth_failures },
          { authCalls := k.authCalls + 1, valCalls := k.valCalls,
            fetchCalls := k.fetchCalls }) := by
      simp only [ensure_authenticated, authenticate_with_access_code, h,
        hsid, herr, Bool.not_false, Bool.and_true, Bool.true_and, if_true]
      rfl
    unfold get_devices
    rw [hens]
    rfl

/-- Claim C4 (amended), witness at the all-error router. -/
theorem get_devices_transport_exceptions_absorbed_witness :
    authenticate_with_access_code envErrAll 0 = none ∧
    validate_session (Except.error ()) = false ∧
    (get_devices envErrAll 1 counters0 sPT).map (fun t => t.1) = some none ∧
    (get_devices envErrAll 1 counters0 sAC).map (fun t => t.1) = some none :=
  ⟨get_devices_transport_exceptions_absorbed.1 envErrAll 0 rfl,
   get_devices_transport_exceptions_absorbed.2.1,
   get_devices_transport_exceptions_absorbed.2.2.1 envErrAll counters0 sPT 0
     rfl,
   get_devices_transport_exceptions_absorbed.2.2.2 envErrAll counters0 sAC 0
     rfl rfl rfl⟩

end ATTRouter
